import Mathlib

/-!
# Verification of the stock-screener indicator engine (src/streamlit_app.py)

This file is a shallow embedding, in Lean 4, of the indicator library,
pattern detectors and screening driver of the repository's single source
file `src/streamlit_app.py`, together with theorems settling the frozen
claims about it.

Modelling conventions:

* A pandas float `Series` is modelled as a `List XVal`, where `XVal`
  is the set of IEEE-754 double values relevant to this program:
  `nan`, `inf`, `neginf` and exact values `val (q : Rat)`.  All the
  arithmetic the source performs (`+`, `-`, `*`, `/`, `abs`, comparisons)
  is defined on `XVal` following IEEE semantics: `nan` propagates,
  any comparison with `nan` is `false`, `x / 0` is `±inf` for `x ≠ 0`
  and `nan` for `x = 0`.  Binary floating-point rounding is idealised
  to exact rational arithmetic.
* A price bar is a `Bar` (high, low, close, volume as rationals); the
  date index of a pandas frame is strictly increasing, so label-based
  positions are represented by list positions.
* `pandas.Series.rolling(w).mean()` leaves the first `w - 1` positions
  `nan` (its default `min_periods` equals the window), and a window that
  still contains `nan` yields `nan`; `rollingMean` reproduces this.
* Fallible operations — `iloc` indexing that can raise `IndexError` —
  return `Option`; `none` models a raised exception.
-/

/-- An IEEE-754 style extended value: `nan`, the two infinities, or an
exact (rational) finite value. -/
inductive XVal where
  | nan : XVal
  | inf : XVal
  | neginf : XVal
  | val : ℚ → XVal
deriving DecidableEq

namespace XVal

/-- IEEE addition on extended values: `nan` propagates, `inf + neginf = nan`. -/
def xadd : XVal → XVal → XVal
  | nan, _ => nan
  | _, nan => nan
  | inf, neginf => nan
  | neginf, inf => nan
  | inf, _ => inf
  | _, inf => inf
  | neginf, _ => neginf
  | _, neginf => neginf
  | val a, val b => val (a + b)

/-- IEEE subtraction on extended values. -/
def xsub : XVal → XVal → XVal
  | nan, _ => nan
  | _, nan => nan
  | inf, inf => nan
  | neginf, neginf => nan
  | inf, _ => inf
  | _, inf => neginf
  | neginf, _ => neginf
  | _, neginf => inf
  | val a, val b => val (a - b)

/-- IEEE negation on extended values. -/
def xneg : XVal → XVal
  | nan => nan
  | inf => neginf
  | neginf => inf
  | val a => val (-a)

/-- IEEE multiplication on extended values (`0 * inf = nan`). -/
def xmul : XVal → XVal → XVal
  | nan, _ => nan
  | _, nan => nan
  | inf, inf => inf
  | inf, neginf => neginf
  | neginf, inf => neginf
  | neginf, neginf => inf
  | inf, val b => if b = 0 then nan else if 0 < b then inf else neginf
  | val a, inf => if a = 0 then nan else if 0 < a then inf else neginf
  | neginf, val b => if b = 0 then nan else if 0 < b then neginf else inf
  | val a, neginf => if a = 0 then nan else if 0 < a then neginf else inf
  | val a, val b => val (a * b)

/-- IEEE division on extended values, as numpy produces it for a pandas
Series: `x / 0 = inf` for `x > 0`, `neginf` for `x < 0`, and `0 / 0 = nan`. -/
def xdiv : XVal → XVal → XVal
  | nan, _ => nan
  | _, nan => nan
  | inf, inf => nan
  | inf, neginf => nan
  | neginf, inf => nan
  | neginf, neginf => nan
  | inf, val b => if 0 ≤ b then inf else neginf
  | neginf, val b => if 0 ≤ b then neginf else inf
  | val _, inf => val 0
  | val _, neginf => val 0
  | val a, val b =>
      if b = 0 then (if a = 0 then nan else if 0 < a then inf else neginf)
      else val (a / b)

/-- IEEE absolute value on extended values. -/
def xabs : XVal → XVal
  | nan => nan
  | inf => inf
  | neginf => inf
  | val a => val |a|

/-- IEEE strict less-than as a boolean: every comparison with `nan`
is `false`, exactly as in Python/numpy. -/
def xlt : XVal → XVal → Bool
  | nan, _ => false
  | _, nan => false
  | neginf, neginf => false
  | neginf, _ => true
  | _, neginf => false
  | inf, _ => false
  | val _, inf => true
  | val a, val b => decide (a < b)

/-- IEEE strict greater-than as a boolean. -/
def xgt (a b : XVal) : Bool := xlt b a

/-- `Series.fillna(0)` pointwise: `nan` becomes `0`; infinities stay. -/
def fillna0 : XVal → XVal
  | nan => val 0
  | v => v

/-- `Series.clip(lower=0)` pointwise (`nan` stays `nan`). -/
def clipLower0 : XVal → XVal
  | val x => val (max x 0)
  | v => v

/-- `Series.clip(upper=0)` pointwise (`nan` stays `nan`). -/
def clipUpper0 : XVal → XVal
  | val x => val (min x 0)
  | v => v

end XVal

open XVal

/-- One daily price bar of the fetched history (`yfinance` columns used by
the program). The date index is represented positionally. -/
structure Bar where
  high : ℚ
  low : ℚ
  close : ℚ
  volume : ℚ
deriving DecidableEq

/-- The Close column of a bar table. -/
def closes (data : List Bar) : List ℚ := data.map Bar.close

/-- The High column of a bar table. -/
def highs (data : List Bar) : List ℚ := data.map Bar.high

/-- The Low column of a bar table. -/
def lows (data : List Bar) : List ℚ := data.map Bar.low

/-- The Volume column of a bar table. -/
def volumes (data : List Bar) : List ℚ := data.map Bar.volume

/-- `Series.diff()`: first position is `nan`, position `i > 0` holds
`x[i] - x[i-1]`. -/
def diffX : List ℚ → List XVal
  | [] => []
  | x :: rest => XVal.nan :: List.zipWith (fun a b => XVal.val (b - a)) (x :: rest) rest

/-- Mean of one rolling window: `nan` when the window still contains a
`nan` (pandas counts only non-null observations against `min_periods`),
otherwise the IEEE sum divided by the window length. -/
def xmean (l : List XVal) : XVal :=
  if l.any (fun v => decide (v = XVal.nan)) then XVal.nan
  else xdiv (l.foldr xadd (XVal.val 0)) (XVal.val (l.length : ℚ))

/-- `Series.rolling(window=w).mean()`: position `i` is `nan` while fewer
than `w` observations exist, otherwise the mean of positions
`i - w + 1 … i`. -/
def rollingMean (w : Nat) (xs : List XVal) : List XVal :=
  (List.range xs.length).map
    (fun i => if i + 1 < w then XVal.nan else xmean ((xs.take (i + 1)).drop (i + 1 - w)))

/-- `series.iloc[-k]` for `k ≥ 1`: the `k`-th element from the end;
`none` models the `IndexError` pandas raises when the series is shorter
than `k`. -/
def ilocNeg {α : Type} (xs : List α) (k : Nat) : Option α :=
  if k ≤ xs.length then xs.get? (xs.length - k) else none

/-- `series.tail(n)`: the trailing `n` elements. -/
def tailN {α : Type} (n : Nat) (xs : List α) : List α := xs.drop (xs.length - n)

/-- `get_stock_data` after the external fetch: `raw = none` models a fetch
exception; an empty table yields `None`; otherwise the history is
truncated to its trailing 50 bars (`data.tail(50)`). -/
def get_stock_data_model (raw : Option (List Bar)) : Option (List Bar) :=
  match raw with
  | none => none
  | some l => if l.isEmpty then none else some (tailN 50 l)

/-- The per-position RSI formula `100 - (100 / (1 + rs))` of
`calculate_rsi`. -/
def rsiPoint (r : XVal) : XVal :=
  xsub (XVal.val 100) (xdiv (XVal.val 100) (xadd (XVal.val 1) r))

/-- The average-gain series of `calculate_rsi`:
`delta.clip(lower=0).rolling(window).mean()`. -/
def rsiGain (data : List Bar) (window : Nat := 14) : List XVal :=
  rollingMean window ((diffX (closes data)).map clipLower0)

/-- The average-loss series of `calculate_rsi`:
`(-delta.clip(upper=0)).rolling(window).mean()`. -/
def rsiLoss (data : List Bar) (window : Nat := 14) : List XVal :=
  rollingMean window ((diffX (closes data)).map (fun v => xneg (clipUpper0 v)))

/-- `calculate_rsi(data, window=14)`: `rs = gain / loss`;
`rsi = 100 - 100 / (1 + rs)`; `return rsi.fillna(0)`. -/
def calculate_rsi (data : List Bar) (window : Nat := 14) : List XVal :=
  ((List.zipWith xdiv (rsiGain data window) (rsiLoss data window)).map rsiPoint).map fillna0

/-- Running cumulative sum (`Series.cumsum()`) with IEEE addition. -/
def cumsumX : XVal → List XVal → List XVal
  | _, [] => []
  | acc, x :: rest =>
      let s := xadd acc x
      s :: cumsumX s rest

/-- `calculate_adi`: `clv = ((close - low) - (high - close)) / (high - low)`,
`clv = clv.fillna(0)`, `adi = (clv * volume).cumsum()`.  Note `fillna(0)`
repairs only the `0 / 0 = nan` case of a degenerate bar, not `x / 0 = ±inf`. -/
def calculate_adi (data : List Bar) : List XVal :=
  let clv := data.map (fun b =>
    xdiv (XVal.val ((b.close - b.low) - (b.high - b.close))) (XVal.val (b.high - b.low)))
  let clv := clv.map fillna0
  cumsumX (XVal.val 0) (List.zipWith xmul clv (data.map (fun b => XVal.val b.volume)))

/-- `detect_accumulation`: `adi.iloc[-1] > adi.iloc[-5]`.  `none` models the
`IndexError` raised when the series has fewer than 5 bars. -/
def detect_accumulation (data : List Bar) : Option Bool := do
  let adi := calculate_adi data
  let a ← ilocNeg adi 1
  let b ← ilocNeg adi 5
  pure (xgt a b)

/-- `detect_distribution`: `adi.iloc[-1] < adi.iloc[-5]`; `none` models the
`IndexError` on fewer than 5 bars. -/
def detect_distribution (data : List Bar) : Option Bool := do
  let adi := calculate_adi data
  let a ← ilocNeg adi 1
  let b ← ilocNeg adi 5
  pure (xlt a b)

/-- `detect_rsi_oversold`: `rsi.iloc[-1] < 30 if not rsi.empty else False`. -/
def detect_rsi_oversold (data : List Bar) : Bool :=
  match ilocNeg (calculate_rsi data) 1 with
  | some v => xlt v (XVal.val 30)
  | none => false

/-- `detect_rsi_exit_oversold`:
`rsi.iloc[-2] < 30 and rsi.iloc[-1] > 30 if len(rsi) >= 2 else False`. -/
def detect_rsi_exit_oversold (data : List Bar) : Bool :=
  match ilocNeg (calculate_rsi data) 2, ilocNeg (calculate_rsi data) 1 with
  | some a, some b => xlt a (XVal.val 30) && xgt b (XVal.val 30)
  | _, _ => false

/-- `Series.idxmin()` on a positionally indexed list: the position of the
first occurrence of the minimum (helper recursion). -/
def idxminAux : List ℚ → Nat → Nat → ℚ → Nat
  | [], _, best, _ => best
  | x :: rest, i, best, bv =>
      if x < bv then idxminAux rest (i + 1) i x else idxminAux rest (i + 1) best bv

/-- `Series.idxmin()`: position of the first minimum (0 on the empty list;
the source never calls it on an empty slice). -/
def idxmin : List ℚ → Nat
  | [] => 0
  | x :: rest => idxminAux rest 1 0 x

/-- `detect_rsi_bullish_divergence`: guard `len(rsi) < 15`; `low1` is the
index of the minimum close over `iloc[-10:-5]`, `low2` over `iloc[-5:]`;
requires `low1 < low2`, a lower low in close and a higher low in RSI.
Strictly increasing dates make label order coincide with position order. -/
def detect_rsi_bullish_divergence (data : List Bar) : Bool :=
  let rsi := calculate_rsi data
  let close := closes data
  if rsi.length < 15 then false
  else
    let n := close.length
    let low1 := (n - 10) + idxmin ((close.drop (n - 10)).take 5)
    let low2 := (n - 5) + idxmin (close.drop (n - 5))
    if low2 ≤ low1 then false
    else
      decide (close.getD low2 0 < close.getD low1 0)
        && xgt (rsi.getD low2 XVal.nan) (rsi.getD low1 XVal.nan)

/-- `Series.ewm(span, adjust=False).mean()` tail recursion:
`y[t] = alpha * x[t] + (1 - alpha) * y[t-1]`. -/
def ewmRec (alpha : ℚ) : ℚ → List ℚ → List ℚ
  | _, [] => []
  | prev, x :: rest =>
      let e := alpha * x + (1 - alpha) * prev
      e :: ewmRec alpha e rest

/-- `Series.ewm(span, adjust=False).mean()`: seeded from the first
observation, with `alpha = 2 / (span + 1)`. -/
def ewmList (alpha : ℚ) : List ℚ → List ℚ
  | [] => []
  | x :: rest => x :: ewmRec alpha x rest

/-- `calculate_macd(data, fast=12, slow=26, signal=9)`: the MACD line
`EMA(close, fast) - EMA(close, slow)` and its signal line `EMA(macd, signal)`. -/
def calculate_macd (data : List Bar) (fast : Nat := 12) (slow : Nat := 26)
    (signal : Nat := 9) : List ℚ × List ℚ :=
  let close := closes data
  let ema_fast := ewmList (2 / ((fast : ℚ) + 1)) close
  let ema_slow := ewmList (2 / ((slow : ℚ) + 1)) close
  let macd := List.zipWith (fun a b => a - b) ema_fast ema_slow
  let signal_line := ewmList (2 / ((signal : ℚ) + 1)) macd
  (macd, signal_line)

/-- `detect_macd_bullish_crossover`:
`macd.iloc[-2] < signal.iloc[-2] and macd.iloc[-1] > signal.iloc[-1]`;
`none` models the `IndexError` on fewer than 2 bars. -/
def detect_macd_bullish_crossover (data : List Bar) : Option Bool := do
  let macd := (calculate_macd data).1
  let signal := (calculate_macd data).2
  let m2 ← ilocNeg macd 2
  let s2 ← ilocNeg signal 2
  let m1 ← ilocNeg macd 1
  let s1 ← ilocNeg signal 1
  pure (decide (m2 < s2) && decide (s1 < m1))

/-- `detect_macd_strong_bullish`: the crossover holds and `macd.iloc[-1] > 0`
(the Python `and` short-circuits, so `iloc[-1]` is only reached when the
crossover is true, and then at least 2 bars exist). -/
def detect_macd_strong_bullish (data : List Bar) : Option Bool := do
  let c ← detect_macd_bullish_crossover data
  if c then
    let m1 ← ilocNeg (calculate_macd data).1 1
    pure (decide (0 < m1))
  else
    pure false

/-- `detect_volume_up_two_days`: guard `len(data) < 20`; the trailing-10-day
mean volume `iloc[-11:-1].mean()`; requires `vol[-1] > 1.5 * avg`,
`vol[-2] > 1.3 * avg` and `close[-1] > MA20[-1]`. -/
def detect_volume_up_two_days (data : List Bar) : Bool :=
  if data.length < 20 then false
  else
    let close := (closes data).map XVal.val
    let ma20 := rollingMean 20 close
    let vols := volumes data
    let n := vols.length
    let avg10 := ((vols.take (n - 1)).drop (n - 11)).sum / 10
    decide (3 / 2 * avg10 < vols.getD (n - 1) 0)
      && decide (13 / 10 * avg10 < vols.getD (n - 2) 0)
      && xlt (ma20.getD (data.length - 1) XVal.nan) (close.getD (data.length - 1) XVal.nan)

/-- `detect_golden_cross`: guard `len(data) < 50`; requires
`MA20.iloc[-2] < MA50.iloc[-2] and MA20.iloc[-1] > MA50.iloc[-1]`.
Under the guard both negative positions are in range, so `getD` defaults
are never hit. -/
def detect_golden_cross (data : List Bar) : Bool :=
  if data.length < 50 then false
  else
    let close := (closes data).map XVal.val
    let ma20 := rollingMean 20 close
    let ma50 := rollingMean 50 close
    xlt (ma20.getD (data.length - 2) XVal.nan) (ma50.getD (data.length - 2) XVal.nan)
      && xlt (ma50.getD (data.length - 1) XVal.nan) (ma20.getD (data.length - 1) XVal.nan)

/-- The masking `series[series < 0] = 0` of `calculate_adx`, pointwise:
negative finite values are zeroed; `nan` (for which `nan < 0` is false)
and nonnegative values are kept. -/
def maskNegZero : List XVal → List XVal :=
  List.map (fun v =>
    match v with
    | XVal.val x => if x < 0 then XVal.val 0 else XVal.val x
    | w => w)

/-- The `plus_dm` stage of `calculate_adx`: `high.diff()` with negatives
zeroed. -/
def adx_plus_dm (high : List ℚ) : List XVal := maskNegZero (diffX high)

/-- The `minus_dm` stage of `calculate_adx`, exactly as the source computes
it: `low.diff().abs()` followed by the (vacuous, since an absolute value is
never negative) zeroing of negatives. -/
def adx_minus_dm (low : List ℚ) : List XVal := maskNegZero ((diffX low).map xabs)

/-- The true-range stage of `calculate_adx`:
`concat([high - low, |high - close.shift()|, |low - close.shift()|]).max(axis=1)`.
`close.shift()` is `nan` at position 0 and row-wise `max` skips `nan`, so
position 0 is `high[0] - low[0]`. -/
def trList (high low close : List ℚ) : List XVal :=
  (List.range high.length).map (fun i =>
    match i with
    | 0 => XVal.val (high.getD 0 0 - low.getD 0 0)
    | Nat.succ j =>
        XVal.val (max (high.getD i 0 - low.getD i 0)
          (max |high.getD i 0 - close.getD j 0| |low.getD i 0 - close.getD j 0|)))

/-- `calculate_adx(data, period=14)`: Wilder-style pipeline as the source
writes it (rolling simple means, `fillna(0)` at the end). -/
def calculate_adx (data : List Bar) (period : Nat := 14) : List XVal :=
  let high := highs data
  let low := lows data
  let close := closes data
  let plus_dm := adx_plus_dm high
  let minus_dm := adx_minus_dm low
  let tr := trList high low close
  let atr := rollingMean period tr
  let plus_di := (List.zipWith xdiv (rollingMean period plus_dm) atr).map
    (fun v => xmul (XVal.val 100) v)
  let minus_di := (List.zipWith xdiv (rollingMean period minus_dm) atr).map
    (fun v => xmul (XVal.val 100) v)
  let dx := List.zipWith
    (fun p m => xmul (xdiv (xabs (xsub p m)) (xadd p m)) (XVal.val 100)) plus_di minus_di
  let adx := rollingMean period dx
  adx.map fillna0

/-- The rationals under an all-finite `XVal` list; `none` as soon as a
`nan` or an infinity occurs. -/
def qvals : List XVal → Option (List ℚ)
  | [] => some []
  | XVal.val x :: rest => (qvals rest).map (x :: ·)
  | _ => none

/-- Sample variance (`ddof = 1`, as `pandas.Series.rolling(...).std()`
uses) of one window; `nan` when the window is degenerate. -/
def varOf (l : List XVal) : XVal :=
  match qvals l with
  | none => XVal.nan
  | some qs =>
      if qs.length ≤ 1 then XVal.nan
      else
        let mu := qs.sum / (qs.length : ℚ)
        XVal.val (((qs.map (fun x => (x - mu) ^ 2)).sum) / ((qs.length : ℚ) - 1))

/-- The square of `Series.rolling(w).std()`: position `i` is `nan` while
the window is unfilled, otherwise the sample variance of the window. -/
def rollingVar (w : Nat) (xs : List XVal) : List XVal :=
  (List.range xs.length).map
    (fun i => if i + 1 < w then XVal.nan else varOf ((xs.take (i + 1)).drop (i + 1 - w)))

/-- Decides the source comparison `BandWidth < 0.05` of
`detect_consolidation` without leaving the rationals.  With
`Upper - Lower = 4 * std` the band width is `4 * sqrt(var) / ma`; for
`ma > 0` the comparison is equivalent to `6400 * var < ma ^ 2`, for
`ma < 0` the left side is nonpositive so it holds, and for `ma = 0` or an
undefined operand the float comparison involves `inf`/`nan` and is false. -/
def bandWidthLt5pc (ma varv : XVal) : Bool :=
  match ma, varv with
  | XVal.val m, XVal.val v =>
      if 0 < m then decide (6400 * v < m ^ 2)
      else if m < 0 then true
      else false
  | _, _ => false

/-- `detect_consolidation`: guard `len(data) < 20`; Bollinger band width of
the last 3 bars below 5% and ADX of the last 3 bars below 20. -/
def detect_consolidation (data : List Bar) : Bool :=
  if data.length < 20 then false
  else
    let close := (closes data).map XVal.val
    let ma20 := rollingMean 20 close
    let var20 := rollingVar 20 close
    let adx := calculate_adx data
    let bwPairs := List.zip ma20 var20
    let last3bw := bwPairs.drop (bwPairs.length - 3)
    let last3adx := adx.drop (adx.length - 3)
    last3bw.all (fun p => bandWidthLt5pc p.1 p.2) && last3adx.all (fun a => xlt a (XVal.val 20))

/-- The fixed detector catalog; constructors correspond 1-1 to the
indicator-name strings of `main` (`rsiOversold` = "RSI Oversold", …,
`volumeMelejit` = "Volume Melejit (MA20 Confirmed)", `akumulasi` =
"Akumulasi", `distribusi` = "Distribusi", `konsolidasi` = "Konsolidasi"). -/
inductive IndicatorName where
  | rsiOversold
  | rsiExitOversold
  | rsiBullishDivergence
  | macdBullish
  | macdStrongBullish
  | volumeMelejit
  | goldenCross
  | akumulasi
  | distribusi
  | konsolidasi
deriving DecidableEq

/-- The `matched` list of the per-symbol loop (lines 209-219 of `main`),
abstracted over the boolean each detector returned: the ten conditional
appends in source order. -/
def matchedOf (r : IndicatorName → Bool) : List IndicatorName :=
  (if r .rsiOversold then [IndicatorName.rsiOversold] else [])
    ++ (if r .rsiExitOversold then [IndicatorName.rsiExitOversold] else [])
    ++ (if r .rsiBullishDivergence then [IndicatorName.rsiBullishDivergence] else [])
    ++ (if r .macdBullish then [IndicatorName.macdBullish] else [])
    ++ (if r .macdStrongBullish then [IndicatorName.macdStrongBullish] else [])
    ++ (if r .volumeMelejit then [IndicatorName.volumeMelejit] else [])
    ++ (if r .goldenCross then [IndicatorName.goldenCross] else [])
    ++ (if r .akumulasi then [IndicatorName.akumulasi] else [])
    ++ (if r .distribusi then [IndicatorName.distribusi] else [])
    ++ (if r .konsolidasi then [IndicatorName.konsolidasi] else [])

/-- The screening selector of `main` (line 221):
`all(ind in matched for ind in selected_indicators)`. -/
def selectorALL (selected matched : List IndicatorName) : Bool :=
  selected.all (fun i => decide (i ∈ matched))

/-- One symbol's detector pass (lines 209-219): evaluates all ten
detectors on the prepared series, in source order; `none` models an
unhandled exception from a fallible detector. -/
def evalMatched (data : List Bar) : Option (List IndicatorName) := do
  let rMacd ← detect_macd_bullish_crossover data
  let rMacdStrong ← detect_macd_strong_bullish data
  let rAcc ← detect_accumulation data
  let rDist ← detect_distribution data
  pure (matchedOf (fun n =>
    match n with
    | .rsiOversold => detect_rsi_oversold data
    | .rsiExitOversold => detect_rsi_exit_oversold data
    | .rsiBullishDivergence => detect_rsi_bullish_divergence data
    | .macdBullish => rMacd
    | .macdStrongBullish => rMacdStrong
    | .volumeMelejit => detect_volume_up_two_days data
    | .goldenCross => detect_golden_cross data
    | .akumulasi => rAcc
    | .distribusi => rDist
    | .konsolidasi => detect_consolidation data))

/-- Round-half-to-even to an integer, the rounding Python's builtin
`round` performs (idealised to exact rationals). -/
def roundHalfEven (x : ℚ) : ℤ :=
  let f := Int.floor x
  let r := x - f
  if r < 1 / 2 then f
  else if 1 / 2 < r then f + 1
  else if 2 ∣ f then f else f + 1

/-- `round(x, 2)` of the result record's "Last Close". -/
def round2 (x : ℚ) : ℚ := (roundHalfEven (100 * x) : ℚ) / 100

/-- One row of the results table:
`{"Ticker", "Last Close", "Indikator Terpenuhi"}`. -/
structure ResultRecord where
  ticker : String
  lastClose : ℚ
  matchedNames : List IndicatorName
deriving DecidableEq

/-- A user-visible output of `main`, in emission order: the "Menganalisis
n saham" info, each `progress_bar.progress((i+1)/len(tickers))` update
(kept as the exact pair `(i+1, len)`), and the final success table or
empty-result warning. -/
inductive UIEvent where
  | infoCount (n : Nat)
  | progressFrac (num den : Nat)
  | successTable
  | warningEmpty
deriving DecidableEq

/-- The per-symbol loop of `main` (lines 203-228): fetch, skip on
unavailable or short history (advancing the progress bar), otherwise run
the detectors, append a result record when every selected indicator
matched, and advance the progress bar.  `none` models an unhandled
exception aborting the run. -/
def screenLoop (selected : List IndicatorName) (fetch : String → Option (List Bar))
    (den : Nat) : Nat → List String → Option (List ResultRecord × List UIEvent)
  | _, [] => some ([], [])
  | i, t :: rest =>
    match get_stock_data_model (fetch t) with
    | none =>
        (screenLoop selected fetch den (i + 1) rest).map
          (fun p => (p.1, UIEvent.progressFrac (i + 1) den :: p.2))
    | some data =>
        if data.length < 50 then
          (screenLoop selected fetch den (i + 1) rest).map
            (fun p => (p.1, UIEvent.progressFrac (i + 1) den :: p.2))
        else
          match evalMatched data, ilocNeg (closes data) 1 with
          | some matched, some lastC =>
              (screenLoop selected fetch den (i + 1) rest).map
                (fun p =>
                  ((if selectorALL selected matched
                      then [ResultRecord.mk t (round2 lastC) matched] else []) ++ p.1,
                   UIEvent.progressFrac (i + 1) den :: p.2))
          | _, _ => none

/-- The outcome of one screening run of `main`. -/
inductive RunOutcome where
  | configError (msg : String)
  | crashed
  | finished (results : List ResultRecord) (events : List UIEvent)
deriving DecidableEq

/-- The screening run of `main` after the button press, from the
already-computed selected-indicator list: the empty-selection guard
(line 189), then the symbol loop, then the success table or the
empty-result warning.  The ticker list stands for the loaded sheet; the
trailing BBCA display section is presentation only and not part of the
run's screening contract. -/
def runMain (selected : List IndicatorName) (tickers : List String)
    (fetch : String → Option (List Bar)) : RunOutcome :=
  if selected.isEmpty then RunOutcome.configError "Pilih minimal satu indikator!"
  else
    match screenLoop selected fetch tickers.length 0 tickers with
    | none => RunOutcome.crashed
    | some (rs, es) =>
        RunOutcome.finished rs
          (UIEvent.infoCount tickers.length ::
            (es ++ [if rs.isEmpty then UIEvent.warningEmpty else UIEvent.successTable]))

/-- The sidebar checkbox states of `main` that feed the selected-indicator
list (lines 154-165). -/
structure Checkboxes where
  rsi_check : Bool
  rsi_exit_check : Bool
  rsi_div_check : Bool
  macd_check : Bool
  macd_strong_check : Bool
  volume_check : Bool
  golden_cross_check : Bool
  acc_check : Bool
  dist_check : Bool
  cons_check : Bool
  three_of_kind_check : Bool
  lengkap_check : Bool

/-- The selected-indicator list of `main` (lines 168-187): the ten
individual appends, then the "Three of Kind" preset override, then the
"Lengkap" (Complete) preset override. -/
def computeSelected (cb : Checkboxes) : List IndicatorName :=
  let sel :=
    (if cb.rsi_check then [IndicatorName.rsiOversold] else [])
      ++ (if cb.rsi_exit_check then [IndicatorName.rsiExitOversold] else [])
      ++ (if cb.rsi_div_check then [IndicatorName.rsiBullishDivergence] else [])
      ++ (if cb.macd_check then [IndicatorName.macdBullish] else [])
      ++ (if cb.macd_strong_check then [IndicatorName.macdStrongBullish] else [])
      ++ (if cb.volume_check then [IndicatorName.volumeMelejit] else [])
      ++ (if cb.golden_cross_check then [IndicatorName.goldenCross] else [])
      ++ (if cb.acc_check then [IndicatorName.akumulasi] else [])
      ++ (if cb.dist_check then [IndicatorName.distribusi] else [])
      ++ (if cb.cons_check then [IndicatorName.konsolidasi] else [])
  let sel :=
    if cb.three_of_kind_check then
      [IndicatorName.rsiOversold, IndicatorName.macdBullish, IndicatorName.volumeMelejit]
    else sel
  let sel :=
    if cb.lengkap_check then
      [IndicatorName.rsiOversold, IndicatorName.rsiExitOversold,
       IndicatorName.rsiBullishDivergence, IndicatorName.macdBullish,
       IndicatorName.macdStrongBullish, IndicatorName.volumeMelejit,
       IndicatorName.goldenCross, IndicatorName.akumulasi,
       IndicatorName.distribusi, IndicatorName.konsolidasi]
    else sel
  sel

/-! ## Helper lemmas -/

theorem xlt_nan_right (v : XVal) : xlt v XVal.nan = false := by
  cases v <;> rfl

theorem length_rollingMean (w : Nat) (xs : List XVal) :
    (rollingMean w xs).length = xs.length := by
  simp [rollingMean]

theorem getElem?_rollingMean (w : Nat) (xs : List XVal) (i : Nat) (h : i < xs.length) :
    (rollingMean w xs)[i]? =
      some (if i + 1 < w then XVal.nan else xmean ((xs.take (i + 1)).drop (i + 1 - w))) := by
  simp [rollingMean, List.getElem?_map, List.getElem?_range, h]

theorem length_closes (data : List Bar) : (closes data).length = data.length := by
  simp [closes]

theorem length_diffX (xs : List ℚ) : (diffX xs).length = xs.length := by
  cases xs with
  | nil => rfl
  | cons x rest => simp [diffX]

theorem length_tailN {α : Type} (n : Nat) (xs : List α) : (tailN n xs).length ≤ n := by
  simp only [tailN, List.length_drop]
  omega

theorem ilocNeg_eq_some {α : Type} (d : α) (xs : List α) (k : Nat)
    (h1 : 1 ≤ k) (h2 : k ≤ xs.length) :
    ilocNeg xs k = some (xs.getD (xs.length - k) d) := by
  have hlt : xs.length - k < xs.length := by omega
  simp [ilocNeg, h2, List.getD_eq_getElem?_getD, List.getElem?_eq_getElem hlt]

/-! ## C1: the Screening Driver can never trigger a golden cross -/

/-- C1: on every series the fetch step can hand to the detectors (it
truncates every history to its trailing 50 bars), `detect_golden_cross`
returns `false`: with at most 50 bars the 50-bar moving average at the
second-to-last position is still undefined (`nan`), and a float comparison
against `nan` is false, so the crossover condition cannot hold. -/
theorem golden_cross_false_on_driver_series (raw : Option (List Bar)) (d : List Bar)
    (h : get_stock_data_model raw = some d) : detect_golden_cross d = false := by
  have hlen : d.length ≤ 50 := by
    cases raw with
    | none => simp [get_stock_data_model] at h
    | some l =>
      by_cases he : l.isEmpty
      · simp [get_stock_data_model, he] at h
      · simp [get_stock_data_model, he] at h
        rw [← h]
        exact length_tailN 50 l
  by_cases h50 : d.length < 50
  · simp [detect_golden_cross, h50]
  · have h50' : d.length = 50 := by omega
    have h48 : (rollingMean 50 ((closes d).map XVal.val)).getD (d.length - 2) XVal.nan
        = XVal.nan := by
      have hi : d.length - 2 < ((closes d).map XVal.val).length := by
        simp [length_closes, h50']
      rw [List.getD_eq_getElem?_getD, getElem?_rollingMean 50 _ _ hi, h50']
      norm_num
    simp only [detect_golden_cross, if_neg h50]
    rw [h48, xlt_nan_right, Bool.false_and]

/-- Witness for C1 at a concrete fetched history of one bar. -/
theorem golden_cross_false_on_driver_series_witness :
    get_stock_data_model (some [(⟨2, 1, 1, 1⟩ : Bar)]) = some [⟨2, 1, 1, 1⟩] ∧
      detect_golden_cross [(⟨2, 1, 1, 1⟩ : Bar)] = false :=
  ⟨rfl, golden_cross_false_on_driver_series (some [⟨2, 1, 1, 1⟩]) [⟨2, 1, 1, 1⟩] rfl⟩

/-! ## C2: short series make some detectors raise, not return false -/

/-- C2 (failing behavior): on a 4-bar series, `detect_accumulation` and
`detect_distribution` raise `IndexError` (modelled `none`) through
`adi.iloc[-5]` instead of returning false, and on a 1-bar series
`detect_macd_bullish_crossover` raises through `macd.iloc[-2]`; only
`detect_rsi_exit_oversold` carries the guard the claim describes and
returns false. -/
theorem short_series_detectors_raise :
    detect_accumulation (List.replicate 4 ⟨2, 1, 3 / 2, 100⟩) = none ∧
      detect_distribution (List.replicate 4 ⟨2, 1, 3 / 2, 100⟩) = none ∧
      detect_macd_bullish_crossover [⟨2, 1, 3 / 2, 100⟩] = none ∧
      detect_rsi_exit_oversold [⟨2, 1, 3 / 2, 100⟩] = false :=
  ⟨rfl, rfl, rfl, rfl⟩

/-! ## C3: RSI on a flat series -/

theorem closes_const (data : List Bar) (c : ℚ) (h : ∀ b ∈ data, b.close = c) :
    closes data = List.replicate data.length c := by
  induction data with
  | nil => rfl
  | cons b rest ih =>
      have hb : b.close = c := h b (List.mem_cons_self b rest)
      have hrest := ih (fun x hx => h x (List.mem_cons_of_mem b hx))
      simp [closes, List.replicate_succ] at hrest ⊢
      exact ⟨hb, hrest⟩

theorem zipWith_sub_replicate (k : Nat) (c : ℚ) :
    List.zipWith (fun a b => XVal.val (b - a)) (c :: List.replicate k c) (List.replicate k c)
      = List.replicate k (XVal.val 0) := by
  induction k with
  | zero => rfl
  | succ j ih =>
      simp only [List.replicate_succ, List.zipWith_cons_cons] at ih ⊢
      rw [ih]
      simp

theorem diffX_replicate (m : Nat) (c : ℚ) :
    diffX (List.replicate (m + 1) c) = XVal.nan :: List.replicate m (XVal.val 0) := by
  rw [List.replicate_succ]
  show XVal.nan :: List.zipWith (fun a b => XVal.val (b - a))
      (c :: List.replicate m c) (List.replicate m c) = _
  rw [zipWith_sub_replicate]

theorem xmean_cons_nan (l : List XVal) : xmean (XVal.nan :: l) = XVal.nan := by
  simp [xmean]

theorem foldr_xadd_replicate_zero (w : Nat) :
    (List.replicate w (XVal.val 0)).foldr xadd (XVal.val 0) = XVal.val 0 := by
  induction w with
  | zero => rfl
  | succ k ih => rw [List.replicate_succ, List.foldr_cons, ih]; simp [xadd]

theorem xmean_replicate_zero (w : Nat) (hw : 1 ≤ w) :
    xmean (List.replicate w (XVal.val 0)) = XVal.val 0 := by
  have hne : ((w : ℚ)) ≠ 0 := by
    exact_mod_cast Nat.pos_iff_ne_zero.mp hw
  simp [xmean, foldr_xadd_replicate_zero, xdiv, hne]

theorem rollingMean_nan_zeros (w m : Nat) (hw : 1 ≤ w) :
    rollingMean w (XVal.nan :: List.replicate m (XVal.val 0)) =
      (List.range (m + 1)).map (fun i => if i + 1 ≤ w then XVal.nan else XVal.val 0) := by
  apply List.ext_getElem?
  intro i
  by_cases hi : i < m + 1
  · have hlen : i < (XVal.nan :: List.replicate m (XVal.val 0)).length := by
      simpa using hi
    rw [getElem?_rollingMean w _ i hlen, List.getElem?_map, List.getElem?_range hi]
    simp only [Option.map_some']
    congr 1
    have htake : (XVal.nan :: List.replicate m (XVal.val 0)).take (i + 1)
        = XVal.nan :: List.replicate i (XVal.val 0) := by
      rw [List.take_succ_cons, List.take_replicate, Nat.min_eq_left (by omega)]
    by_cases h1 : i + 1 < w
    · simp [h1, Nat.le_of_lt h1]
    · by_cases h2 : i + 1 = w
      · rw [if_neg h1, htake, h2, Nat.sub_self, List.drop_zero, xmean_cons_nan,
          if_pos (by omega)]
      · have hgt : w < i + 1 := by omega
        rw [if_neg h1, htake, if_neg (by omega)]
        have hdrop : (XVal.nan :: List.replicate i (XVal.val 0)).drop (i + 1 - w)
            = List.replicate w (XVal.val 0) := by
          have : i + 1 - w = (i - w) + 1 := by omega
          rw [this, List.drop_succ_cons, List.drop_replicate]
          congr 1
          omega
        rw [hdrop, xmean_replicate_zero w hw]
  · have h1 : (rollingMean w (XVal.nan :: List.replicate m (XVal.val 0))).length = m + 1 := by
      simp [length_rollingMean]
    have h2 : ((List.range (m + 1)).map
        (fun i => if i + 1 ≤ w then XVal.nan else XVal.val 0)).length = m + 1 := by
      simp
    rw [List.getElem?_eq_none (by omega), List.getElem?_eq_none (by omega)]

theorem zipWith_xdiv_nan_zero_self (w m : Nat) :
    List.zipWith xdiv
      ((List.range (m + 1)).map (fun i => if i + 1 ≤ w then XVal.nan else XVal.val 0))
      ((List.range (m + 1)).map (fun i => if i + 1 ≤ w then XVal.nan else XVal.val 0))
    = List.replicate (m + 1) XVal.nan := by
  apply List.ext_getElem?
  intro i
  by_cases hi : i < m + 1
  · rw [List.getElem?_zipWith']
    simp only [List.getElem?_map, List.getElem?_range hi, List.getElem?_replicate,
      if_pos hi, Option.map_some', Option.some_bind]
    by_cases h1 : i + 1 ≤ w <;> simp [h1, xdiv]
  · rw [List.getElem?_eq_none (by simp; omega), List.getElem?_eq_none (by simp; omega)]

/-- The core computation behind C3: on any series with constant close the
whole RSI output is the sentinel 0 — `rs` is `0 / 0 = nan` at every filled
window (and `nan` before), and the final `fillna(0)` maps every position
to 0. -/
theorem calculate_rsi_const_aux (data : List Bar) (c : ℚ) (h : ∀ b ∈ data, b.close = c) :
    calculate_rsi data = List.replicate data.length (XVal.val 0) := by
  have hc := closes_const data c h
  cases hn : data.length with
  | zero =>
      have : data = [] := List.length_eq_zero.mp hn
      subst this
      rfl
  | succ m =>
      have hdiff : diffX (closes data) = XVal.nan :: List.replicate m (XVal.val 0) := by
        rw [hc, hn, diffX_replicate]
      have hgain : rsiGain data 14 =
          (List.range (m + 1)).map (fun i => if i + 1 ≤ 14 then XVal.nan else XVal.val 0) := by
        rw [rsiGain, hdiff]
        have : (XVal.nan :: List.replicate m (XVal.val 0)).map clipLower0
            = XVal.nan :: List.replicate m (XVal.val 0) := by
          simp [clipLower0]
        rw [this, rollingMean_nan_zeros 14 m (by omega)]
      have hloss : rsiLoss data 14 =
          (List.range (m + 1)).map (fun i => if i + 1 ≤ 14 then XVal.nan else XVal.val 0) := by
        rw [rsiLoss, hdiff]
        have : (XVal.nan :: List.replicate m (XVal.val 0)).map (fun v => xneg (clipUpper0 v))
            = XVal.nan :: List.replicate m (XVal.val 0) := by
          simp [clipUpper0, xneg]
        rw [this, rollingMean_nan_zeros 14 m (by omega)]
      rw [calculate_rsi, hgain, hloss, zipWith_xdiv_nan_zero_self,
        List.map_replicate, List.map_replicate]
      rfl

/-- C3 (amended): for every series with constant close price,
`calculate_rsi` resolves every position — filled window or not — to the
sentinel 0, never `nan` and never an exception. -/
theorem rsi_const_close_is_zero (data : List Bar) (c : ℚ) (h : ∀ b ∈ data, b.close = c) :
    calculate_rsi data = List.replicate data.length (XVal.val 0) :=
  calculate_rsi_const_aux data c h

/-- Witness for C3 (amended) on a concrete 3-bar flat series. -/
theorem rsi_const_close_is_zero_witness :
    (∀ b ∈ List.replicate 3 (⟨12, 9, 10, 100⟩ : Bar), b.close = 10) ∧
      calculate_rsi (List.replicate 3 ⟨12, 9, 10, 100⟩)
        = List.replicate 3 (XVal.val 0) := by
  have hyp : ∀ b ∈ List.replicate 3 (⟨12, 9, 10, 100⟩ : Bar), b.close = 10 := by
    intro b hb
    rw [List.eq_of_mem_replicate hb]
  refine ⟨hyp, ?_⟩
  have := rsi_const_close_is_zero (List.replicate 3 ⟨12, 9, 10, 100⟩) 10 hyp
  simpa using this

/-- C3 counterexample: on a concrete 20-bar flat series the RSI at the
last position — whose 14-bar rolling window is filled — is the sentinel 0,
not the neutral 50 the claim asserts. -/
theorem rsi_const_close_not_fifty :
    (calculate_rsi (List.replicate 20 (⟨12, 9, 10, 100⟩ : Bar)))[19]? ≠ some (XVal.val 50) := by
  have hyp : ∀ b ∈ List.replicate 20 (⟨12, 9, 10, 100⟩ : Bar), b.close = 10 := by
    intro b hb
    rw [List.eq_of_mem_replicate hb]
  rw [calculate_rsi_const_aux (List.replicate 20 ⟨12, 9, 10, 100⟩) 10 hyp]
  simp only [List.length_replicate, List.getElem?_replicate]
  intro hcontra
  simp only [if_pos (by omega : (19 : Nat) < 20), Option.some.injEq, XVal.val.injEq] at hcontra
  norm_num at hcontra

/-! ## C4: zero average loss with positive average gain gives RSI 100 -/

/-- C4: at any position where the rolling average loss is 0 and the rolling
average gain is positive, `calculate_rsi` yields exactly 100: `rs = g / 0`
evaluates to `inf`, and `100 - 100 / (1 + inf) = 100 - 0 = 100` — no
undefined ratio escapes. -/
theorem rsi_avg_loss_zero_yields_100 (data : List Bar) (window i : Nat) (g : ℚ)
    (hg : (rsiGain data window)[i]? = some (XVal.val g)) (hgpos : 0 < g)
    (hl : (rsiLoss data window)[i]? = some (XVal.val 0)) :
    (calculate_rsi data window)[i]? = some (XVal.val 100) := by
  rw [calculate_rsi, List.getElem?_map, List.getElem?_map, List.getElem?_zipWith', hg, hl]
  have hx : xdiv (XVal.val g) (XVal.val 0) = XVal.inf := by
    simp [xdiv, hgpos, ne_of_gt hgpos]
  simp only [Option.map_some', Option.some_bind, hx]
  simp [rsiPoint, xadd, xdiv, xsub, fillna0]

/-- Witness for C4 on a concrete strictly rising 2-bar series with
window 1. -/
theorem rsi_avg_loss_zero_yields_100_witness :
    (rsiGain [(⟨1, 0, 0, 1⟩ : Bar), ⟨2, 1, 1, 1⟩] 1)[1]? = some (XVal.val 1) ∧
      (0 : ℚ) < 1 ∧
      (rsiLoss [(⟨1, 0, 0, 1⟩ : Bar), ⟨2, 1, 1, 1⟩] 1)[1]? = some (XVal.val 0) ∧
      (calculate_rsi [(⟨1, 0, 0, 1⟩ : Bar), ⟨2, 1, 1, 1⟩] 1)[1]? = some (XVal.val 100) := by
  have hg : (rsiGain [(⟨1, 0, 0, 1⟩ : Bar), ⟨2, 1, 1, 1⟩] 1)[1]? = some (XVal.val 1) := by
    norm_num [rsiGain, rollingMean, diffX, closes, clipLower0, xmean, xadd, xdiv,
      List.range_succ, xneg, clipUpper0]
  have hl : (rsiLoss [(⟨1, 0, 0, 1⟩ : Bar), ⟨2, 1, 1, 1⟩] 1)[1]? = some (XVal.val 0) := by
    norm_num [rsiLoss, rollingMean, diffX, closes, clipLower0, xmean, xadd, xdiv,
      List.range_succ, xneg, clipUpper0]
  exact ⟨hg, by norm_num, hl,
    rsi_avg_loss_zero_yields_100 [⟨1, 0, 0, 1⟩, ⟨2, 1, 1, 1⟩] 1 1 1 hg (by norm_num) hl⟩

/-! ## C5: the minus directional movement of calculate_adx -/

/-- C5 (failing behavior): at the concrete lows 1, 3 — the low rises by
2 — the source's minus directional movement is `|low.diff()| = 2` (the
subsequent zeroing of negatives never fires after an absolute value),
whereas the Wilder construction the claim states, `max(low[t-1] - low[t], 0)`,
is 0 there. -/
theorem adx_minus_dm_not_wilder :
    adx_minus_dm [1, 3] = [XVal.nan, XVal.val 2] ∧
      max ((1 : ℚ) - 3) 0 = 0 ∧ XVal.val 2 ≠ XVal.val 0 := by
  refine ⟨?_, by norm_num, ?_⟩
  · norm_num [adx_minus_dm, maskNegZero, diffX, xabs]
  · intro hcontra
    injection hcontra with h2
    norm_num at h2

/-! ## C6: the MACD bullish crossover rule -/

theorem length_ewmRec (alpha p : ℚ) (xs : List ℚ) :
    (ewmRec alpha p xs).length = xs.length := by
  induction xs generalizing p with
  | nil => rfl
  | cons x rest ih => simp [ewmRec, ih]

theorem length_ewmList (alpha : ℚ) (xs : List ℚ) :
    (ewmList alpha xs).length = xs.length := by
  cases xs with
  | nil => rfl
  | cons x rest => simp [ewmList, length_ewmRec]

theorem length_macd_fst (data : List Bar) :
    (calculate_macd data).1.length = data.length := by
  simp [calculate_macd, length_ewmList, length_closes]

theorem length_macd_snd (data : List Bar) :
    (calculate_macd data).2.length = data.length := by
  have h1 := length_macd_fst data
  simp only [calculate_macd] at h1 ⊢
  rw [length_ewmList]
  exact h1

/-- The crossover detector, fully evaluated on any series of at least two
bars. -/
theorem detect_macd_eq (data : List Bar) (h : 2 ≤ data.length) :
    detect_macd_bullish_crossover data =
      some (decide ((calculate_macd data).1.getD (data.length - 2) 0
            < (calculate_macd data).2.getD (data.length - 2) 0)
        && decide ((calculate_macd data).2.getD (data.length - 1) 0
            < (calculate_macd data).1.getD (data.length - 1) 0)) := by
  have hm := length_macd_fst data
  have hs := length_macd_snd data
  have h1 := ilocNeg_eq_some 0 (calculate_macd data).1 2 (by omega) (by omega)
  have h2 := ilocNeg_eq_some 0 (calculate_macd data).2 2 (by omega) (by omega)
  have h3 := ilocNeg_eq_some 0 (calculate_macd data).1 1 (by omega) (by omega)
  have h4 := ilocNeg_eq_some 0 (calculate_macd data).2 1 (by omega) (by omega)
  rw [hm] at h1 h3
  rw [hs] at h2 h4
  simp [detect_macd_bullish_crossover, h1, h2, h3, h4]

/-- C6: `detect_macd_bullish_crossover` is true iff the MACD line crosses
the signal line strictly from below between the last two bars
(`macd[-2] < signal[-2]` and `macd[-1] > signal[-1]`); in particular it
returns false when the MACD line is already above the signal line at both
of the last two bars. -/
theorem macd_crossover_iff (data : List Bar) (h : 2 ≤ data.length) :
    (detect_macd_bullish_crossover data = some true ↔
      ((calculate_macd data).1.getD (data.length - 2) 0
          < (calculate_macd data).2.getD (data.length - 2) 0 ∧
        (calculate_macd data).2.getD (data.length - 1) 0
          < (calculate_macd data).1.getD (data.length - 1) 0)) ∧
    ((calculate_macd data).2.getD (data.length - 2) 0
        < (calculate_macd data).1.getD (data.length - 2) 0 ∧
      (calculate_macd data).2.getD (data.length - 1) 0
        < (calculate_macd data).1.getD (data.length - 1) 0 →
      detect_macd_bullish_crossover data = some false) := by
  have heq := detect_macd_eq data h
  constructor
  · rw [heq]
    simp [Bool.and_eq_true, decide_eq_true_iff]
  · intro hx
    rw [heq, decide_eq_false (not_lt.mpr (le_of_lt hx.1)), Bool.false_and]

/-- The concrete three-bar series (closes 10, 5, 15) used to witness C6. -/
def macdWitnessBars : List Bar := [⟨11, 9, 10, 1⟩, ⟨6, 4, 5, 1⟩, ⟨16, 14, 15, 1⟩]

/-- Witness for C6 at a concrete three-bar series. -/
theorem macd_crossover_iff_witness :
    2 ≤ macdWitnessBars.length ∧
      ((detect_macd_bullish_crossover macdWitnessBars = some true ↔
        ((calculate_macd macdWitnessBars).1.getD (macdWitnessBars.length - 2) 0
            < (calculate_macd macdWitnessBars).2.getD (macdWitnessBars.length - 2) 0 ∧
          (calculate_macd macdWitnessBars).2.getD (macdWitnessBars.length - 1) 0
            < (calculate_macd macdWitnessBars).1.getD (macdWitnessBars.length - 1) 0)) ∧
      ((calculate_macd macdWitnessBars).2.getD (macdWitnessBars.length - 2) 0
          < (calculate_macd macdWitnessBars).1.getD (macdWitnessBars.length - 2) 0 ∧
        (calculate_macd macdWitnessBars).2.getD (macdWitnessBars.length - 1) 0
          < (calculate_macd macdWitnessBars).1.getD (macdWitnessBars.length - 1) 0 →
        detect_macd_bullish_crossover macdWitnessBars = some false)) :=
  ⟨by norm_num [macdWitnessBars], macd_crossover_iff macdWitnessBars (by norm_num [macdWitnessBars])⟩

/-! ## C7: ALL-mode selection is a strict conjunction -/

theorem mem_cond_singleton {b : Bool} {x y : IndicatorName} :
    (y ∈ if b then [x] else []) ↔ b = true ∧ y = x := by
  cases b <;> simp

theorem mem_matchedOf (i : IndicatorName) (r : IndicatorName → Bool) :
    i ∈ matchedOf r ↔ r i = true := by
  cases i <;> simp [matchedOf, mem_cond_singleton]

theorem decide_mem_matchedOf (i : IndicatorName) (r : IndicatorName → Bool) :
    decide (i ∈ matchedOf r) = r i := by
  rcases h : r i with _ | _
  · exact decide_eq_false (fun hm => by
      have := (mem_matchedOf i r).mp hm
      rw [this] at h
      cases h)
  · exact decide_eq_true ((mem_matchedOf i r).mpr h)

/-- C7: in ALL mode, for every detector-result mapping and every non-empty
selected-name list, the selector includes the symbol iff every selected
detector evaluated to true — a strict conjunction with no partial credit. -/
theorem selector_all_iff (r : IndicatorName → Bool) (selected : List IndicatorName)
    (hne : selected ≠ []) :
    (selectorALL selected (matchedOf r) = true ↔ ∀ i ∈ selected, r i = true) := by
  simp [selectorALL, List.all_eq_true, decide_eq_true_eq, mem_matchedOf]

/-- Witness for C7 at a concrete two-name selection and all-true results. -/
theorem selector_all_iff_witness :
    ([IndicatorName.rsiOversold, IndicatorName.konsolidasi] ≠ ([] : List IndicatorName)) ∧
      (selectorALL [IndicatorName.rsiOversold, IndicatorName.konsolidasi]
          (matchedOf (fun _ => true)) = true ↔
        ∀ i ∈ [IndicatorName.rsiOversold, IndicatorName.konsolidasi],
          (fun (_ : IndicatorName) => true) i = true) :=
  ⟨by decide, selector_all_iff (fun _ => true) _ (by decide)⟩

/-! ## C8: the Three of Kind preset -/

/-- C8: when the "Three of Kind" preset is the chosen preset (the
"Lengkap"/Complete preset, which takes precedence in the source, is not
also ticked), the selected-name list is overridden to exactly RSI
Oversold, MACD Bullish, Volume Spike regardless of the ten individually
ticked detectors, and inclusion is the ALL-mode conjunction over those
three. -/
theorem three_of_kind_preset (cb : Checkboxes) (h3 : cb.three_of_kind_check = true)
    (hL : cb.lengkap_check = false) :
    computeSelected cb
        = [IndicatorName.rsiOversold, IndicatorName.macdBullish, IndicatorName.volumeMelejit] ∧
      ∀ r : IndicatorName → Bool,
        selectorALL (computeSelected cb) (matchedOf r)
          = (r .rsiOversold && r .macdBullish && r .volumeMelejit) := by
  have hsel : computeSelected cb
      = [IndicatorName.rsiOversold, IndicatorName.macdBullish, IndicatorName.volumeMelejit] := by
    simp [computeSelected, h3, hL]
  refine ⟨hsel, fun r => ?_⟩
  rw [hsel]
  simp only [selectorALL, List.all_cons, List.all_nil, decide_mem_matchedOf, Bool.and_true]
  cases r .rsiOversold <;> cases r .macdBullish <;> cases r .volumeMelejit <;> rfl

/-- A checkbox state with every individual detector ticked, the Three of
Kind preset on and the Complete preset off. -/
def cbAllTicked : Checkboxes :=
  ⟨true, true, true, true, true, true, true, true, true, true, true, false⟩

/-- A detector outcome with MACD Bullish false and everything else true. -/
def rThreeWitness : IndicatorName → Bool :=
  fun n => match n with
  | .macdBullish => false
  | _ => true

/-- Witness for C8 at a concrete checkbox state and detector outcome. -/
theorem three_of_kind_preset_witness :
    cbAllTicked.three_of_kind_check = true ∧ cbAllTicked.lengkap_check = false ∧
      computeSelected cbAllTicked
        = [IndicatorName.rsiOversold, IndicatorName.macdBullish, IndicatorName.volumeMelejit] ∧
      selectorALL (computeSelected cbAllTicked) (matchedOf rThreeWitness)
        = (rThreeWitness .rsiOversold && rThreeWitness .macdBullish
            && rThreeWitness .volumeMelejit) :=
  ⟨rfl, rfl, (three_of_kind_preset cbAllTicked rfl rfl).1,
    (three_of_kind_preset cbAllTicked rfl rfl).2 rThreeWitness⟩

/-! ## C9: an empty selection aborts the run before any symbol work -/

/-- C9: a screening request with an empty selected-detector list is
rejected up front with the user-facing error, for every ticker list and
every fetch collaborator — no symbol is fetched, no record is produced. -/
theorem empty_selection_rejected (tickers : List String)
    (fetch : String → Option (List Bar)) :
    runMain [] tickers fetch = RunOutcome.configError "Pilih minimal satu indikator!" := rfl

/-! ## C10: skipped symbols -/

theorem screenLoop_nil (selected : List IndicatorName) (fetch : String → Option (List Bar))
    (den i : Nat) : screenLoop selected fetch den i [] = some ([], []) := rfl

/-- Provenance of result records: every record of a completed run comes
from a symbol whose fetched, truncated history was available with at
least 50 bars. -/
theorem screenLoop_records_sourced (sel : List IndicatorName)
    (fetch : String → Option (List Bar)) (den : Nat) :
    ∀ (tickers : List String) (i : Nat) (out : List ResultRecord) (evs : List UIEvent),
      screenLoop sel fetch den i tickers = some (out, evs) →
      ∀ rec ∈ out, ∃ d, get_stock_data_model (fetch rec.ticker) = some d ∧ 50 ≤ d.length := by
  intro tickers
  induction tickers with
  | nil =>
      intro i out evs h rec hrec
      rw [screenLoop_nil] at h
      cases h
      exact absurd hrec (List.not_mem_nil rec)
  | cons t rest ih =>
      intro i out evs h rec hrec
      simp only [screenLoop] at h
      split at h
      · -- fetched history unavailable: the symbol is skipped
        cases hr : screenLoop sel fetch den (i + 1) rest with
        | none =>
            rw [hr, Option.map_none'] at h
            cases h
        | some p =>
            obtain ⟨rs, es⟩ := p
            rw [hr, Option.map_some'] at h
            simp only [Option.some.injEq, Prod.mk.injEq] at h
            obtain ⟨hout, -⟩ := h
            subst hout
            exact ih (i + 1) rs es hr rec hrec
      · -- history available
        rename_i data hf
        split at h
        · -- shorter than 50 bars: skipped
          cases hr : screenLoop sel fetch den (i + 1) rest with
          | none =>
              rw [hr, Option.map_none'] at h
              cases h
          | some p =>
              obtain ⟨rs, es⟩ := p
              rw [hr, Option.map_some'] at h
              simp only [Option.some.injEq, Prod.mk.injEq] at h
              obtain ⟨hout, -⟩ := h
              subst hout
              exact ih (i + 1) rs es hr rec hrec
        · -- processed
          rename_i hlen
          split at h
          · rename_i matched lastC hm hc
            cases hr : screenLoop sel fetch den (i + 1) rest with
            | none =>
                rw [hr, Option.map_none'] at h
                cases h
            | some p =>
                obtain ⟨rs, es⟩ := p
                rw [hr, Option.map_some'] at h
                simp only [Option.some.injEq, Prod.mk.injEq] at h
                obtain ⟨hout, -⟩ := h
                subst hout
                rcases List.mem_append.mp hrec with hleft | hright
                · by_cases hsel : selectorALL sel matched
                  · rw [if_pos hsel] at hleft
                    rcases List.mem_singleton.mp hleft with rfl
                    exact ⟨data, hf, by omega⟩
                  · rw [if_neg hsel] at hleft
                    exact absurd hleft (List.not_mem_nil rec)
                · exact ih (i + 1) rs es hr rec hright
          · cases h

/-- C10 (amended): a symbol whose fetched history is unavailable or
shorter than 50 bars contributes nothing: the loop's output on that
symbol is exactly the output on the remaining symbols with the progress
update prepended (so the symbol is skipped, the progress indicator still
advances past it, the run continues rather than aborting, and — by the
provenance part — no record of any completed run ever names a symbol
with unavailable or short history). -/
theorem skipped_symbol_contributes_nothing (sel : List IndicatorName)
    (fetch : String → Option (List Bar)) (den i : Nat) (t : String) (rest : List String)
    (hbad : get_stock_data_model (fetch t) = none ∨
      ∃ d, get_stock_data_model (fetch t) = some d ∧ d.length < 50) :
    (screenLoop sel fetch den i (t :: rest)
        = (screenLoop sel fetch den (i + 1) rest).map
            (fun p => (p.1, UIEvent.progressFrac (i + 1) den :: p.2))) ∧
    (∀ (tickers : List String) (j : Nat) (out : List ResultRecord) (evs : List UIEvent),
      screenLoop sel fetch den j tickers = some (out, evs) →
      ∀ rec ∈ out, ∃ d, get_stock_data_model (fetch rec.ticker) = some d ∧ 50 ≤ d.length) := by
  refine ⟨?_, fun tickers => screenLoop_records_sourced sel fetch den tickers⟩
  rcases hbad with hnone | ⟨d, hd, hlen⟩
  · simp only [screenLoop, hnone]
  · simp only [screenLoop, hd, if_pos hlen]

/-- Witness for C10 (amended) at a concrete unavailable fetch. -/
theorem skipped_symbol_contributes_nothing_witness :
    screenLoop [IndicatorName.rsiOversold] (fun _ => none) 1 0 ["AAA"]
      = (screenLoop [IndicatorName.rsiOversold] (fun _ => none) 1 1 []).map
          (fun p => (p.1, UIEvent.progressFrac 1 1 :: p.2)) :=
  (skipped_symbol_contributes_nothing [IndicatorName.rsiOversold] (fun _ => none) 1 0 "AAA" []
    (Or.inl rfl)).1

/-! Auxiliary facts on a constant 50-bar series, used to exhibit a fully
processed, non-matching symbol whose run output coincides with a skipped
symbol's. -/

theorem closes_replicate (n : Nat) (b : Bar) :
    closes (List.replicate n b) = List.replicate n b.close := by
  simp [closes]

theorem ewmRec_const (alpha c : ℚ) (m : Nat) :
    ewmRec alpha c (List.replicate m c) = List.replicate m c := by
  induction m with
  | zero => rfl
  | succ k ih =>
      rw [List.replicate_succ]
      simp only [ewmRec]
      have he : alpha * c + (1 - alpha) * c = c := by ring
      rw [he, ih, ← List.replicate_succ]

theorem ewmList_const (alpha c : ℚ) (n : Nat) :
    ewmList alpha (List.replicate n c) = List.replicate n c := by
  cases n with
  | zero => rfl
  | succ m =>
      rw [List.replicate_succ]
      simp only [ewmList]
      rw [ewmRec_const, ← List.replicate_succ]

theorem zipWith_self_replicate {α β : Type} (f : α → α → β) (n : Nat) (c : α) :
    List.zipWith f (List.replicate n c) (List.replicate n c) = List.replicate n (f c c) := by
  induction n with
  | zero => rfl
  | succ k ih => simp [List.replicate_succ, ih]

theorem macd_const (n : Nat) (b : Bar) :
    calculate_macd (List.replicate n b) = (List.replicate n 0, List.replicate n 0) := by
  simp only [calculate_macd, closes_replicate, ewmList_const, zipWith_self_replicate,
    sub_self]

theorem getD_replicate_zero (n i : Nat) :
    (List.replicate n (0 : ℚ)).getD i 0 = 0 := by
  rw [List.getD_eq_getElem?_getD, List.getElem?_replicate]
  by_cases h : i < n <;> simp [h]

theorem detect_macd_const (n : Nat) (hn : 2 ≤ n) (b : Bar) :
    detect_macd_bullish_crossover (List.replicate n b) = some false := by
  have heq := detect_macd_eq (List.replicate n b) (by simpa using hn)
  rw [macd_const] at heq
  simp only [List.length_replicate, getD_replicate_zero] at heq
  rw [heq, decide_eq_false (lt_irrefl (0 : ℚ)), Bool.false_and]

theorem detect_macd_strong_const (n : Nat) (hn : 2 ≤ n) (b : Bar) :
    detect_macd_strong_bullish (List.replicate n b) = some false := by
  simp [detect_macd_strong_bullish, detect_macd_const n hn b]

theorem length_cumsumX (acc : XVal) (l : List XVal) :
    (cumsumX acc l).length = l.length := by
  induction l generalizing acc with
  | nil => rfl
  | cons x rest ih => simp [cumsumX, ih]

theorem length_calculate_adi (data : List Bar) :
    (calculate_adi data).length = data.length := by
  simp [calculate_adi, length_cumsumX]

theorem detect_accumulation_isSome (data : List Bar) (h : 5 ≤ data.length) :
    ∃ bv, detect_accumulation data = some bv := by
  have hlen := length_calculate_adi data
  have h1 := ilocNeg_eq_some XVal.nan (calculate_adi data) 1 (by omega) (by omega)
  have h5 := ilocNeg_eq_some XVal.nan (calculate_adi data) 5 (by omega) (by omega)
  have hsome : (detect_accumulation data).isSome = true := by
    simp [detect_accumulation, h1, h5]
  exact Option.isSome_iff_exists.mp hsome

theorem detect_distribution_isSome (data : List Bar) (h : 5 ≤ data.length) :
    ∃ bv, detect_distribution data = some bv := by
  have hlen := length_calculate_adi data
  have h1 := ilocNeg_eq_some XVal.nan (calculate_adi data) 1 (by omega) (by omega)
  have h5 := ilocNeg_eq_some XVal.nan (calculate_adi data) 5 (by omega) (by omega)
  have hsome : (detect_distribution data).isSome = true := by
    simp [detect_distribution, h1, h5]
  exact Option.isSome_iff_exists.mp hsome

/-- On a constant 50-bar history, the detector pass completes (no
exception) and MACD Bullish is not among the matched names. -/
theorem evalMatched_const_50 (b : Bar) :
    ∃ m, evalMatched (List.replicate 50 b) = some m ∧ IndicatorName.macdBullish ∉ m := by
  obtain ⟨bAcc, hAcc⟩ := detect_accumulation_isSome (List.replicate 50 b) (by simp)
  obtain ⟨bDist, hDist⟩ := detect_distribution_isSome (List.replicate 50 b) (by simp)
  have hM := detect_macd_const 50 (by omega) b
  have hMS := detect_macd_strong_const 50 (by omega) b
  refine ⟨matchedOf (fun n =>
    match n with
    | .rsiOversold => detect_rsi_oversold (List.replicate 50 b)
    | .rsiExitOversold => detect_rsi_exit_oversold (List.replicate 50 b)
    | .rsiBullishDivergence => detect_rsi_bullish_divergence (List.replicate 50 b)
    | .macdBullish => false
    | .macdStrongBullish => false
    | .volumeMelejit => detect_volume_up_two_days (List.replicate 50 b)
    | .goldenCross => detect_golden_cross (List.replicate 50 b)
    | .akumulasi => bAcc
    | .distribusi => bDist
    | .konsolidasi => detect_consolidation (List.replicate 50 b)), ?_, ?_⟩
  · simp only [evalMatched, hM, hMS, hAcc, hDist]
    rfl
  · rw [mem_matchedOf]
    simp

/-- On a constant 50-bar history with only MACD Bullish selected, the
symbol is fully processed and contributes no record; only the progress
update is emitted — exactly as for a skipped symbol. -/
theorem screenLoop_const_no_match (b : Bar) (t : String) :
    screenLoop [IndicatorName.macdBullish] (fun _ => some (List.replicate 50 b)) 1 0 [t]
      = some ([], [UIEvent.progressFrac 1 1]) := by
  obtain ⟨m, hm, hnot⟩ := evalMatched_const_50 b
  have hfetch : get_stock_data_model (some (List.replicate 50 b))
      = some (List.replicate 50 b) := by
    cases b
    rfl
  have hclose := ilocNeg_eq_some 0 (closes (List.replicate 50 b)) 1
    (by omega) (by simp [length_closes])
  have hsel : selectorALL [IndicatorName.macdBullish] m = false := by
    simp only [selectorALL, List.all_cons, List.all_nil, Bool.and_true]
    exact decide_eq_false hnot
  simp only [screenLoop, hfetch, List.length_replicate]
  rw [if_neg (by omega)]
  rw [hm, hclose]
  simp [screenLoop_nil, hsel]

/-- C10 counterexample: two concrete single-symbol runs — one where the
symbol's history is unavailable (the symbol is skipped), one where a
50-bar history is fetched and fully processed without matching — produce
exactly the same user-visible outcome.  The run therefore maintains no
skip count and reports nothing that identifies the symbol as skipped,
contrary to the claim's "counts and reports it as skipped". -/
theorem skip_indistinguishable_from_no_match :
    get_stock_data_model ((fun (_ : String) => (none : Option (List Bar))) "AAA") = none ∧
      get_stock_data_model ((fun (_ : String) =>
          some (List.replicate 50 (⟨12, 9, 10, 100⟩ : Bar))) "AAA")
        = some (List.replicate 50 ⟨12, 9, 10, 100⟩) ∧
      (List.replicate 50 (⟨12, 9, 10, 100⟩ : Bar)).length = 50 ∧
      runMain [IndicatorName.macdBullish] ["AAA"] (fun _ => none)
        = runMain [IndicatorName.macdBullish] ["AAA"]
            (fun _ => some (List.replicate 50 ⟨12, 9, 10, 100⟩)) := by
  refine ⟨rfl, rfl, by simp, ?_⟩
  have h1 : runMain [IndicatorName.macdBullish] ["AAA"] (fun _ => none)
      = RunOutcome.finished []
          [UIEvent.infoCount 1, UIEvent.progressFrac 1 1, UIEvent.warningEmpty] := rfl
  have h2 : screenLoop [IndicatorName.macdBullish]
      (fun _ => some (List.replicate 50 (⟨12, 9, 10, 100⟩ : Bar))) 1 0 ["AAA"]
      = some ([], [UIEvent.progressFrac 1 1]) := screenLoop_const_no_match _ "AAA"
  rw [h1]
  simp only [runMain, List.isEmpty_cons, List.length_cons, List.length_nil]
  rw [h2]
  rfl
